import Mathlib

/-!
# Cameradar attack engine: a shallow embedding

Embedding of `cameradar/attack.go` (the per-target attackers and the two
orchestrators `AttackRoute` / `AttackCredentials`) and of
`server/service/service.go` (`Cameradar.DiscoverAndAttack`).

* The cURL handle is a stub `curl : String → CurlResult`: the answer the
  transport gives for a URL (client could not be initialised, `Perform`
  failed, `Getinfo` failed, or a response code).
* A goroutine that sends on `resultsChan` is a function returning the list of
  messages it sent, together with the ordered list of candidates it handed to
  `routeAttack` / `credAttack`.
* The order in which the outcomes arrive on the channel is a parameter
  `sched` of the orchestrators.
-/

namespace Cmrdr

/-! ## Data model -/

/-- Modelled from the spec: the `Stream` type declaration is not part of the
sources. `attack.go` reads and writes `username`, `password`, `route`,
`address`, `port`; `service.go` reads `RouteFound`; the spec lists the device
metadata and the two boolean flags. -/
structure Stream where
  device : String
  username : String
  password : String
  route : String
  address : String
  port : Nat
  credentialsFound : Bool
  routeFound : Bool
deriving DecidableEq, Repr

/-- The `Attack` outcome sent on the results channel (fields as used by the
composite literals of `attack.go`; a field left out of a literal is `false`). -/
structure Attack where
  stream : Stream
  credentialsFound : Bool
  routeFound : Bool
deriving DecidableEq, Repr

/-- The `Credentials` dictionary: `Usernames` and `Passwords`. -/
structure Credentials where
  Usernames : List String
  Passwords : List String
deriving DecidableEq, Repr

/-- The `Routes` dictionary: an ordered list of route strings. -/
abbrev Routes := List String

/-- What the cURL handle does for one URL. -/
inductive CurlResult where
  | initError
  | performError (msg : String)
  | getinfoError (msg : String)
  | code (rc : Int)
deriving DecidableEq, Repr

/-- The transport stub: a deterministic function of the probed URL. -/
abbrev Curl := String → CurlResult

/-- The format `"rtsp://%s:%s@%s:%d/%s"` of `fmt.Sprintf`. -/
def attackURL (username password address : String) (port : Nat) (route : String) : String :=
  "rtsp://" ++ username ++ ":" ++ password ++ "@" ++ address ++ ":" ++ toString port ++ "/" ++ route

/-! ## Single probes -/

/-- The function `routeAttack`: one DESCRIBE against the candidate route, with
the stream's current credentials. Returns the camera and the error, if any. -/
def routeAttack (curl : Curl) (camera : Stream) (route : String) : Stream × Option String :=
  match curl (attackURL camera.username camera.password camera.address camera.port route) with
  | .initError => (camera, some "curl initialization error")
  | .performError msg => (camera, some msg)
  | .getinfoError msg => (camera, some msg)
  | .code rc =>
    if rc = 404 then (camera, some "invalid route")
    else ({ camera with route := route }, none)

/-- The function `credAttack`: one DESCRIBE with the candidate credentials
against the stream's current route. -/
def credAttack (curl : Curl) (camera : Stream) (username password : String) :
    Stream × Option String :=
  match curl (attackURL username password camera.address camera.port camera.route) with
  | .initError => (camera, some "curl initialization error")
  | .performError msg => (camera, some msg)
  | .getinfoError msg => (camera, some msg)
  | .code rc =>
    if rc = 403 ∨ rc = 401 then (camera, some "invalid credentials")
    else ({ camera with username := username, password := password }, none)

/-! ## Single-target attackers -/

/-- What one attacker goroutine did: the candidates it handed to the probe
function, in order, and the messages it sent on `resultsChan`. -/
structure Run (α : Type) where
  probed : List α
  sent : List Attack
deriving Repr

/-- The `for _, route := range routes` loop of `attackCameraRoute`: the routes
probed, and the outcome sent before the early `return`, if any. -/
def routeLoop (curl : Curl) (target : Stream) : List String → List String × Option Attack
  | [] => ([], none)
  | route :: rest =>
    match routeAttack curl target route with
    | (result, none) =>
      ([route], some { stream := result, credentialsFound := false, routeFound := true })
    | (_, some _) =>
      let r := routeLoop curl target rest
      (route :: r.1, r.2)

/-- The function `attackCameraRoute`. -/
def attackCameraRoute (curl : Curl) (target : Stream) (routes : Routes) : Run String :=
  match routeLoop curl target routes with
  | (tr, some a) => { probed := tr, sent := [a] }
  | (tr, none) =>
    { probed := tr
      sent := [{ stream := target, credentialsFound := false, routeFound := false }] }

/-- The inner `for _, password := range credentials.Passwords` loop of
`attackCameraCredentials`. -/
def passwordLoop (curl : Curl) (target : Stream) (username : String) :
    List String → List (String × String) × Option Attack
  | [] => ([], none)
  | password :: rest =>
    match credAttack curl target username password with
    | (result, none) =>
      ([(username, password)],
        some { stream := result, credentialsFound := true, routeFound := false })
    | (_, some _) =>
      let r := passwordLoop curl target username rest
      ((username, password) :: r.1, r.2)

/-- The outer `for _, username := range credentials.Usernames` loop of
`attackCameraCredentials`. -/
def usernameLoop (curl : Curl) (target : Stream) (passwords : List String) :
    List String → List (String × String) × Option Attack
  | [] => ([], none)
  | username :: rest =>
    match passwordLoop curl target username passwords with
    | (tr, some a) => (tr, some a)
    | (tr, none) =>
      let r := usernameLoop curl target passwords rest
      (tr ++ r.1, r.2)

/-- The function `attackCameraCredentials`. -/
def attackCameraCredentials (curl : Curl) (target : Stream) (credentials : Credentials) :
    Run (String × String) :=
  match usernameLoop curl target credentials.Passwords credentials.Usernames with
  | (tr, some a) => { probed := tr, sent := [a] }
  | (tr, none) =>
    { probed := tr
      sent := [{ stream := target, credentialsFound := false, routeFound := false }] }

/-! ## Specification-side vocabulary -/

/-- Spec wording: the route candidate gets "a completed response whose status
code is not 404". -/
def routeAccepted (curl : Curl) (s : Stream) (route : String) : Bool :=
  match curl (attackURL s.username s.password s.address s.port route) with
  | .code rc => decide (rc ≠ 404)
  | _ => false

/-- Spec wording: the pair gets "a completed response whose status code is
neither 401 nor 403". -/
def credAccepted (curl : Curl) (s : Stream) (up : String × String) : Bool :=
  match curl (attackURL up.1 up.2 s.address s.port s.route) with
  | .code rc => decide (rc ≠ 401 ∧ rc ≠ 403)
  | _ => false

/-- Spec wording: the Cartesian product of the dictionary, "usernames outer,
passwords inner". -/
def credPairs (credentials : Credentials) : List (String × String) :=
  credentials.Usernames.flatMap (fun u => credentials.Passwords.map (fun p => (u, p)))

/-- Modelled from the spec: the helper `replace` called by the merge loops is
not part of the sources. Spec, merge rule: "replace the corresponding entry in
the target list (matched by address+port identity) with the outcome's updated
stream". -/
def replace (streams : List Stream) (updated : Stream) : List Stream :=
  streams.map (fun old =>
    if old.address = updated.address ∧ old.port = updated.port then updated else old)

/-- Modelled from the spec: the validation tags of the `Stream` declaration
are not part of the sources. Spec: "structural well-formedness (non-empty
address, valid port range, etc.)". Returns the validation error, if any. -/
def validateStruct (s : Stream) : Option String :=
  if s.address = "" then some "address: required"
  else if s.port = 0 ∨ 65535 < s.port then some "port: out of range"
  else none

/-- The loop `for _, target := range targets` that opens `AttackRoute` and
`AttackCredentials`: each target is validated and, when valid, its attacker
goroutine is started at once. Returns the targets whose goroutine was started
and the validation error that ended the loop, if any. -/
def launchLoop (validate : Stream → Option String) : List Stream → List Stream × Option String
  | [] => ([], none)
  | target :: rest =>
    match validate target with
    | some e => ([], some e)
    | none =>
      let r := launchLoop validate rest
      (target :: r.1, r.2)

/-- What one orchestrator call did: the targets for which an attacker
goroutine was started, and the two return values. -/
structure Orchestration where
  launched : List Stream
  results : List Stream
  err : Option String
deriving Repr

/-- The function `AttackRoute`. The argument `sched` gives the order in which
the messages sent by the started goroutines are received from the channel. -/
def AttackRoute (curl : Curl) (validate : Stream → Option String)
    (sched : List Attack → List Attack) (targets : List Stream) (routes : Routes) :
    Orchestration :=
  match launchLoop validate targets with
  | (launched, some e) =>
    { launched := launched, results := targets, err := some ("invalid streams: " ++ e) }
  | (launched, none) =>
    let attacks := sched (launched.flatMap (fun t => (attackCameraRoute curl t routes).sent))
    let attackResults := attacks.take targets.length
    let merged := attackResults.foldl
      (fun targets result =>
        if result.routeFound = true then replace targets result.stream else targets)
      targets
    { launched := launched, results := merged, err := none }

/-- The function `AttackCredentials`. -/
def AttackCredentials (curl : Curl) (validate : Stream → Option String)
    (sched : List Attack → List Attack) (targets : List Stream) (credentials : Credentials) :
    Orchestration :=
  match launchLoop validate targets with
  | (launched, some e) =>
    { launched := launched, results := targets, err := some ("invalid streams: " ++ e) }
  | (launched, none) =>
    let attacks :=
      sched (launched.flatMap (fun t => (attackCameraCredentials curl t credentials).sent))
    let attackResults := attacks.take targets.length
    let merged := attackResults.foldl
      (fun targets result =>
        if result.credentialsFound = true then replace targets result.stream else targets)
      targets
    { launched := launched, results := merged, err := none }

/-! ## Service layer -/

/-- The three stages a campaign can run. -/
inductive Stage where
  | discover
  | attackRoute
  | attackCredentials
deriving DecidableEq, Repr

/-- The package functions `cmrdr.Discover`, `cmrdr.AttackRoute` and
`cmrdr.AttackCredentials` as the service calls them (with the service's
options applied). They act on an outside world `W` (the network), so two calls
on the same list need not agree. Each returns the stream list and the error. -/
structure Package (W : Type) where
  Discover : W → (List Stream × Option String) × W
  AttackRoute : List Stream → W → (List Stream × Option String) × W
  AttackCredentials : List Stream → W → (List Stream × Option String) × W

/-- The service `Cameradar`: its stored `Streams`, the outside world, and the
record of the stages run so far. -/
structure Cameradar (W : Type) where
  Streams : List Stream
  world : W
  calls : List Stage

/-- The call `errors.Wrap(err, message)`. -/
def wrap (err message : String) : String := message ++ ": " ++ err

/-- The method `Cameradar.Discover`. -/
def Cameradar.Discover {W : Type} (env : Package W) (c : Cameradar W) :
    (List Stream × Option String) × Cameradar W :=
  match env.Discover c.world with
  | ((streams, some err), w) =>
    ((streams, some (wrap err "could not discover streams")),
      { c with world := w, calls := c.calls ++ [Stage.discover] })
  | ((streams, none), w) =>
    ((streams, none), { Streams := streams, world := w, calls := c.calls ++ [Stage.discover] })

/-- The method `Cameradar.AttackRoute`. -/
def Cameradar.AttackRoute {W : Type} (env : Package W) (c : Cameradar W) :
    (List Stream × Option String) × Cameradar W :=
  match env.AttackRoute c.Streams c.world with
  | ((streams, some err), w) =>
    ((streams, some (wrap err "could not discover streams")),
      { c with world := w, calls := c.calls ++ [Stage.attackRoute] })
  | ((streams, none), w) =>
    ((streams, none),
      { Streams := streams, world := w, calls := c.calls ++ [Stage.attackRoute] })

/-- The method `Cameradar.AttackCredentials`. -/
def Cameradar.AttackCredentials {W : Type} (env : Package W) (c : Cameradar W) :
    (List Stream × Option String) × Cameradar W :=
  match env.AttackCredentials c.Streams c.world with
  | ((streams, some err), w) =>
    ((streams, some (wrap err "could not discover streams")),
      { c with world := w, calls := c.calls ++ [Stage.attackCredentials] })
  | ((streams, none), w) =>
    ((streams, none),
      { Streams := streams, world := w, calls := c.calls ++ [Stage.attackCredentials] })

/-- The method `Cameradar.DiscoverAndAttack`. -/
def Cameradar.DiscoverAndAttack {W : Type} (env : Package W) (c : Cameradar W) :
    (List Stream × Option String) × Cameradar W :=
  match Cameradar.Discover env c with
  | ((streams, some err), c1) => ((streams, some err), c1)
  | ((_, none), c1) =>
    match Cameradar.AttackRoute env c1 with
    | ((streams, some err), c2) => ((streams, some err), c2)
    | ((_, none), c2) =>
      match Cameradar.AttackCredentials env c2 with
      | ((streams, some err), c3) => ((streams, some err), c3)
      | ((streams, none), c3) =>
        if streams.any (fun stream => stream.routeFound == false) then
          Cameradar.AttackCredentials env c3
        else ((streams, none), c3)

/-! ## Auxiliary definitions used in the proofs -/

/-- The two nested loops seen as one scan of a list of pairs. -/
def pairScan (curl : Curl) (target : Stream) :
    List (String × String) → List (String × String) × Option Attack
  | [] => ([], none)
  | up :: rest =>
    match credAttack curl target up.1 up.2 with
    | (result, none) =>
      ([up], some { stream := result, credentialsFound := true, routeFound := false })
    | (_, some _) =>
      let r := pairScan curl target rest
      (up :: r.1, r.2)

/-- A well-formed camera with nothing found yet. -/
def cam1 : Stream :=
  { device := "cam", username := "", password := "", route := "", address := "10.0.0.1",
    port := 554, credentialsFound := false, routeFound := false }

/-- A stream with an empty address. -/
def camBad : Stream := { cam1 with address := "" }

/-- A transport that answers 200 to every URL. -/
def curlOK : Curl := fun _ => .code 200

/-- A transport that answers 404 to the route `/a` of `cam1` and 200 otherwise. -/
def curlNotA : Curl := fun url =>
  if url = "rtsp://:@10.0.0.1:554//a" then .code 404 else .code 200

/-- A transport that answers 200 to the pair `(u2, p1)` on `cam1` and 401 otherwise. -/
def curlU2P1 : Curl := fun url =>
  if url = "rtsp://u2:p1@10.0.0.1:554/" then .code 200 else .code 401

/-- A transport whose every exchange fails. -/
def curlDown : Curl := fun _ => .performError "timeout"

/-- The camera `cam1` once the route `/a` is set. -/
def camRouted : Stream := { cam1 with route := "/a" }

/-- The camera `cam1` once the route `/a` is set and flagged as found. -/
def camRoutedFound : Stream := { cam1 with route := "/a", routeFound := true }

/-- The camera `camRouted` once the pair `(u1, p1)` is set. -/
def camOwned : Stream := { camRouted with username := "u1", password := "p1" }

/-- The camera `camRoutedFound` once the pair `(u1, p1)` is set. -/
def camOwnedFound : Stream := { camRoutedFound with username := "u1", password := "p1" }

/-- A campaign on an empty service; the world counts the package calls. -/
def svc0 : Cameradar Nat := { Streams := [], world := 0, calls := [] }

/-- A package whose stages all succeed; no stage sets `routeFound`. -/
def pkgOK : Package Nat :=
  { Discover := fun w => (([cam1], none), w + 1)
    AttackRoute := fun l w => ((l.map (fun s => { s with route := "/a" }), none), w + 1)
    AttackCredentials := fun l w =>
      ((l.map (fun s => { s with username := "u1", password := "p1" }), none), w + 1) }

/-- A package whose stages all succeed and whose route phase sets `routeFound`. -/
def pkgRouteFound : Package Nat :=
  { pkgOK with
    AttackRoute := fun l w =>
      ((l.map (fun s => { s with route := "/a", routeFound := true }), none), w + 1) }

/-- A package whose discovery fails. -/
def pkgDiscoverFails : Package Nat :=
  { pkgOK with Discover := fun w => (([], some "nmap failed"), w + 1) }

/-- A package whose route phase fails. -/
def pkgRouteFails : Package Nat :=
  { pkgOK with AttackRoute := fun l w => ((l, some "invalid streams"), w + 1) }

/-- A package whose credential phase fails. -/
def pkgCredentialsFail : Package Nat :=
  { pkgOK with AttackCredentials := fun l w => ((l, some "invalid streams"), w + 1) }

/-! ## Lemmas on the single probes -/

theorem routeAttack_of_accepted (curl : Curl) (s : Stream) (r : String)
    (h : routeAccepted curl s r = true) :
    routeAttack curl s r = ({ s with route := r }, none) := by
  unfold routeAccepted at h
  unfold routeAttack
  split at h <;> simp_all

theorem routeAttack_of_rejected (curl : Curl) (s : Stream) (r : String)
    (h : routeAccepted curl s r = false) :
    ∃ e, routeAttack curl s r = (s, some e) := by
  unfold routeAccepted at h
  unfold routeAttack
  cases hc : curl (attackURL s.username s.password s.address s.port r) with
  | initError => exact ⟨_, rfl⟩
  | performError msg => exact ⟨_, rfl⟩
  | getinfoError msg => exact ⟨_, rfl⟩
  | code rc =>
    rw [hc] at h
    have : rc = 404 := by simpa using h
    simp [this]

theorem credAttack_of_accepted (curl : Curl) (s : Stream) (up : String × String)
    (h : credAccepted curl s up = true) :
    credAttack curl s up.1 up.2 = ({ s with username := up.1, password := up.2 }, none) := by
  unfold credAccepted at h
  unfold credAttack
  split at h <;> simp_all

theorem credAttack_of_rejected (curl : Curl) (s : Stream) (up : String × String)
    (h : credAccepted curl s up = false) :
    ∃ e, credAttack curl s up.1 up.2 = (s, some e) := by
  unfold credAccepted at h
  unfold credAttack
  split at h
  · rename_i rc hrc
    simp only [hrc]
    have : rc = 403 ∨ rc = 401 := by
      simp only [decide_eq_false_iff_not, not_and_or, not_not] at h
      tauto
    simp [this]
  · rename_i hne
    cases hc : curl (attackURL up.1 up.2 s.address s.port s.route) with
    | initError => exact ⟨_, rfl⟩
    | performError msg => exact ⟨_, rfl⟩
    | getinfoError msg => exact ⟨_, rfl⟩
    | code rc => exact absurd hc (hne rc)

/-- Every list with an element satisfying `p` splits at the first such element. -/
theorem exists_first_split {α : Type} (p : α → Bool) (l : List α)
    (h : ∃ x ∈ l, p x = true) :
    ∃ pre x post, l = pre ++ x :: post ∧ (∀ q ∈ pre, p q = false) ∧ p x = true := by
  induction l with
  | nil => simp at h
  | cons a t ih =>
    by_cases ha : p a = true
    · exact ⟨[], a, t, rfl, by simp, ha⟩
    · have ht : ∃ x ∈ t, p x = true := by
        obtain ⟨x, hx, hpx⟩ := h
        rcases List.mem_cons.mp hx with rfl | hx
        · exact absurd hpx ha
        · exact ⟨x, hx, hpx⟩
      obtain ⟨pre, x, post, hl, hpre, hx⟩ := ih ht
      refine ⟨a :: pre, x, post, by simp [hl], ?_, hx⟩
      intro q hq
      rcases List.mem_cons.mp hq with rfl | hq
      · simpa using ha
      · exact hpre q hq

/-! ## Lemmas on the route loop -/

theorem routeLoop_rejected (curl : Curl) (s : Stream) (routes : List String)
    (h : ∀ r ∈ routes, routeAccepted curl s r = false) :
    routeLoop curl s routes = (routes, none) := by
  induction routes with
  | nil => rfl
  | cons a t ih =>
    obtain ⟨e, he⟩ := routeAttack_of_rejected curl s a (h a (by simp))
    have := ih (fun r hr => h r (List.mem_cons_of_mem _ hr))
    simp [routeLoop, he, this]

theorem routeLoop_first (curl : Curl) (s : Stream) (pre : List String) (r : String)
    (post : List String) (hpre : ∀ q ∈ pre, routeAccepted curl s q = false)
    (hr : routeAccepted curl s r = true) :
    routeLoop curl s (pre ++ r :: post)
      = (pre ++ [r],
          some { stream := { s with route := r }, credentialsFound := false,
                 routeFound := true }) := by
  induction pre with
  | nil => simp [routeLoop, routeAttack_of_accepted curl s r hr]
  | cons a t ih =>
    obtain ⟨e, he⟩ := routeAttack_of_rejected curl s a (hpre a (by simp))
    have := ih (fun q hq => hpre q (List.mem_cons_of_mem _ hq))
    simp [routeLoop, he, this]

/-! ## Lemmas on the credential loops -/

theorem passwordLoop_eq_pairScan (curl : Curl) (s : Stream) (u : String) (ps : List String) :
    passwordLoop curl s u ps = pairScan curl s (ps.map (fun p => (u, p))) := by
  induction ps with
  | nil => rfl
  | cons p t ih =>
    simp only [passwordLoop, List.map_cons, pairScan, ih]

theorem pairScan_append (curl : Curl) (s : Stream) (l1 l2 : List (String × String)) :
    pairScan curl s (l1 ++ l2)
      = match pairScan curl s l1 with
        | (tr, some a) => (tr, some a)
        | (tr, none) => (tr ++ (pairScan curl s l2).1, (pairScan curl s l2).2) := by
  induction l1 with
  | nil => simp [pairScan]
  | cons a t ih =>
    simp only [List.cons_append, pairScan]
    rcases hc : credAttack curl s a.1 a.2 with ⟨res, _ | e⟩
    · simp
    · have ih2 : pairScan curl s (t.append l2) = _ := ih
      simp only [ih2]
      rcases hp : pairScan curl s t with ⟨tr, _ | b⟩ <;> simp

theorem usernameLoop_eq_pairScan (curl : Curl) (s : Stream) (credentials : Credentials) :
    usernameLoop curl s credentials.Passwords credentials.Usernames
      = pairScan curl s (credPairs credentials) := by
  unfold credPairs
  induction credentials.Usernames with
  | nil => rfl
  | cons u t ih =>
    simp only [usernameLoop, List.flatMap_cons, pairScan_append, passwordLoop_eq_pairScan, ih]

theorem pairScan_rejected (curl : Curl) (s : Stream) (l : List (String × String))
    (h : ∀ q ∈ l, credAccepted curl s q = false) :
    pairScan curl s l = (l, none) := by
  induction l with
  | nil => rfl
  | cons a t ih =>
    obtain ⟨e, he⟩ := credAttack_of_rejected curl s a (h a (by simp))
    have := ih (fun r hr => h r (List.mem_cons_of_mem _ hr))
    simp [pairScan, he, this]

theorem pairScan_first (curl : Curl) (s : Stream) (pre : List (String × String))
    (up : String × String) (post : List (String × String))
    (hpre : ∀ q ∈ pre, credAccepted curl s q = false)
    (hup : credAccepted curl s up = true) :
    pairScan curl s (pre ++ up :: post)
      = (pre ++ [up],
          some { stream := { s with username := up.1, password := up.2 },
                 credentialsFound := true, routeFound := false }) := by
  induction pre with
  | nil => simp [pairScan, credAttack_of_accepted curl s up hup]
  | cons a t ih =>
    obtain ⟨e, he⟩ := credAttack_of_rejected curl s a (hpre a (by simp))
    have := ih (fun q hq => hpre q (List.mem_cons_of_mem _ hq))
    simp [pairScan, he, this]

/-! ## The single-target attackers, characterised -/

theorem attackCameraRoute_first (curl : Curl) (s : Stream) (pre : List String) (r : String)
    (post : List String) (hpre : ∀ q ∈ pre, routeAccepted curl s q = false)
    (hr : routeAccepted curl s r = true) :
    attackCameraRoute curl s (pre ++ r :: post)
      = { probed := pre ++ [r]
          sent := [{ stream := { s with route := r }, credentialsFound := false,
                     routeFound := true }] } := by
  simp [attackCameraRoute, routeLoop_first curl s pre r post hpre hr]

theorem attackCameraRoute_rejected (curl : Curl) (s : Stream) (routes : List String)
    (h : ∀ r ∈ routes, routeAccepted curl s r = false) :
    attackCameraRoute curl s routes
      = { probed := routes
          sent := [{ stream := s, credentialsFound := false, routeFound := false }] } := by
  simp [attackCameraRoute, routeLoop_rejected curl s routes h]

theorem attackCameraCredentials_first (curl : Curl) (s : Stream) (credentials : Credentials)
    (pre : List (String × String)) (up : String × String) (post : List (String × String))
    (hsplit : credPairs credentials = pre ++ up :: post)
    (hpre : ∀ q ∈ pre, credAccepted curl s q = false)
    (hup : credAccepted curl s up = true) :
    attackCameraCredentials curl s credentials
      = { probed := pre ++ [up]
          sent := [{ stream := { s with username := up.1, password := up.2 },
                     credentialsFound := true, routeFound := false }] } := by
  simp [attackCameraCredentials, usernameLoop_eq_pairScan, hsplit,
    pairScan_first curl s pre up post hpre hup]

theorem attackCameraCredentials_rejected (curl : Curl) (s : Stream)
    (credentials : Credentials)
    (h : ∀ q ∈ credPairs credentials, credAccepted curl s q = false) :
    attackCameraCredentials curl s credentials
      = { probed := credPairs credentials
          sent := [{ stream := s, credentialsFound := false, routeFound := false }] } := by
  simp [attackCameraCredentials, usernameLoop_eq_pairScan,
    pairScan_rejected curl s (credPairs credentials) h]

/-- Either some candidate is accepted or every candidate is rejected. -/
theorem accepted_or_all_rejected {α : Type} (p : α → Bool) (l : List α) :
    (∃ x ∈ l, p x = true) ∨ (∀ x ∈ l, p x = false) := by
  by_cases h : ∃ x ∈ l, p x = true
  · exact Or.inl h
  · refine Or.inr (fun x hx => ?_)
    cases hp : p x with
    | false => rfl
    | true => exact absurd ⟨x, hx, hp⟩ h

/-- The route probe reads the stream's credentials, address and port only. -/
theorem routeAccepted_congr (curl : Curl) (s t : Stream) (q : String)
    (hu : t.username = s.username) (hp : t.password = s.password)
    (ha : t.address = s.address) (hport : t.port = s.port) :
    routeAccepted curl t q = routeAccepted curl s q := by
  simp [routeAccepted, hu, hp, ha, hport]

/-- The credential probe reads the stream's route, address and port only. -/
theorem credAccepted_congr (curl : Curl) (s t : Stream) (q : String × String)
    (hr : t.route = s.route) (ha : t.address = s.address) (hport : t.port = s.port) :
    credAccepted curl t q = credAccepted curl s q := by
  simp [credAccepted, hr, ha, hport]

/-! ## Claims on the single-target attackers -/

/-- C1. Route phase, first match wins: when some route of the dictionary gets
a completed response other than 404, `attackCameraRoute` sends exactly one
outcome, with `routeFound = true`, whose stream is the target with its route
set to the first such route in dictionary order; every route before it was
answered with 404 or a probe error and was skipped. -/
theorem route_first_match_wins (curl : Curl) (target : Stream) (routes : Routes)
    (h : ∃ r ∈ routes, routeAccepted curl target r = true) :
    ∃ pre r post, routes = pre ++ r :: post ∧
      (∀ q ∈ pre, routeAccepted curl target q = false) ∧
      routeAccepted curl target r = true ∧
      (attackCameraRoute curl target routes).sent
        = [{ stream := { target with route := r }, credentialsFound := false,
             routeFound := true }] := by
  obtain ⟨pre, r, post, hsplit, hpre, hr⟩ := exists_first_split _ routes h
  refine ⟨pre, r, post, hsplit, hpre, hr, ?_⟩
  rw [hsplit, attackCameraRoute_first curl target pre r post hpre hr]

/-- C1 at a concrete input: 404 for `/a`, 200 for `/b`, routes `[/a, /b]`. -/
theorem route_first_match_wins_witness :
    (attackCameraRoute curlNotA cam1 ["/a", "/b"]).sent
        = [{ stream := { cam1 with route := "/b" }, credentialsFound := false,
             routeFound := true }] ∧
    (∃ r ∈ ["/a", "/b"], routeAccepted curlNotA cam1 r = true) ∧
    ∃ pre r post, ["/a", "/b"] = pre ++ r :: post ∧
      (∀ q ∈ pre, routeAccepted curlNotA cam1 q = false) ∧
      routeAccepted curlNotA cam1 r = true ∧
      (attackCameraRoute curlNotA cam1 ["/a", "/b"]).sent
        = [{ stream := { cam1 with route := r }, credentialsFound := false,
             routeFound := true }] :=
  ⟨by decide, ⟨"/b", by simp, by decide⟩,
    route_first_match_wins curlNotA cam1 ["/a", "/b"] ⟨"/b", by simp, by decide⟩⟩

/-- C2. Credential phase, first acceptance wins: when some pair of the
dictionary gets a completed response other than 401 and 403,
`attackCameraCredentials` sends exactly one outcome, with
`credentialsFound = true`, whose stream is the target with username and
password set to the first such pair of the product taken usernames outer,
passwords inner; every pair before it was rejected. -/
theorem credentials_first_acceptance_wins (curl : Curl) (target : Stream)
    (credentials : Credentials)
    (h : ∃ up ∈ credPairs credentials, credAccepted curl target up = true) :
    ∃ pre up post, credPairs credentials = pre ++ up :: post ∧
      (∀ q ∈ pre, credAccepted curl target q = false) ∧
      credAccepted curl target up = true ∧
      (attackCameraCredentials curl target credentials).sent
        = [{ stream := { target with username := up.1, password := up.2 },
             credentialsFound := true, routeFound := false }] := by
  obtain ⟨pre, up, post, hsplit, hpre, hup⟩ := exists_first_split _ _ h
  refine ⟨pre, up, post, hsplit, hpre, hup, ?_⟩
  rw [attackCameraCredentials_first curl target credentials pre up post hsplit hpre hup]

/-- C2 at a concrete input: every pair of `[u1,u2] x [p1,p2]` would be
accepted, and `(u1,p1)` is the one that is. -/
theorem credentials_first_acceptance_wins_witness :
    (attackCameraCredentials curlOK cam1 ⟨["u1", "u2"], ["p1", "p2"]⟩).sent
        = [{ stream := { cam1 with username := "u1", password := "p1" },
             credentialsFound := true, routeFound := false }] ∧
    (∃ up ∈ credPairs ⟨["u1", "u2"], ["p1", "p2"]⟩, credAccepted curlOK cam1 up = true) ∧
    ∃ pre up post, credPairs ⟨["u1", "u2"], ["p1", "p2"]⟩ = pre ++ up :: post ∧
      (∀ q ∈ pre, credAccepted curlOK cam1 q = false) ∧
      credAccepted curlOK cam1 up = true ∧
      (attackCameraCredentials curlOK cam1 ⟨["u1", "u2"], ["p1", "p2"]⟩).sent
        = [{ stream := { cam1 with username := up.1, password := up.2 },
             credentialsFound := true, routeFound := false }] :=
  ⟨by decide, ⟨("u2", "p2"), by simp [credPairs], by decide⟩,
    credentials_first_acceptance_wins curlOK cam1 ⟨["u1", "u2"], ["p1", "p2"]⟩
      ⟨("u2", "p2"), by simp [credPairs], by decide⟩⟩

/-- C5. Non-interference between phases: the outcome of a credential attack
keeps the route, address and port of the input stream, and the outcome of a
route attack keeps its username, password, address and port, whether the
attack succeeds or fails; the same holds for the single probes `credAttack`
and `routeAttack`. -/
theorem phases_do_not_interfere (curl : Curl) (s : Stream) (routes : Routes)
    (credentials : Credentials) (route username password : String) :
    (∃ a, (attackCameraCredentials curl s credentials).sent = [a] ∧
        a.stream.route = s.route ∧ a.stream.address = s.address ∧ a.stream.port = s.port) ∧
    (∃ a, (attackCameraRoute curl s routes).sent = [a] ∧
        a.stream.username = s.username ∧ a.stream.password = s.password ∧
        a.stream.address = s.address ∧ a.stream.port = s.port) ∧
    ((credAttack curl s username password).1.route = s.route ∧
      (credAttack curl s username password).1.address = s.address ∧
      (credAttack curl s username password).1.port = s.port) ∧
    ((routeAttack curl s route).1.username = s.username ∧
      (routeAttack curl s route).1.password = s.password ∧
      (routeAttack curl s route).1.address = s.address ∧
      (routeAttack curl s route).1.port = s.port) := by
  refine ⟨?_, ?_, ?_, ?_⟩
  · rcases accepted_or_all_rejected (credAccepted curl s) (credPairs credentials) with h | h
    · obtain ⟨pre, up, post, hsplit, hpre, hup⟩ := exists_first_split _ _ h
      rw [attackCameraCredentials_first curl s credentials pre up post hsplit hpre hup]
      exact ⟨_, rfl, rfl, rfl, rfl⟩
    · rw [attackCameraCredentials_rejected curl s credentials h]
      exact ⟨_, rfl, rfl, rfl, rfl⟩
  · rcases accepted_or_all_rejected (routeAccepted curl s) routes with h | h
    · obtain ⟨pre, r, post, hsplit, hpre, hr⟩ := exists_first_split _ _ h
      rw [hsplit, attackCameraRoute_first curl s pre r post hpre hr]
      exact ⟨_, rfl, rfl, rfl, rfl, rfl⟩
    · rw [attackCameraRoute_rejected curl s routes h]
      exact ⟨_, rfl, rfl, rfl, rfl, rfl⟩
  · cases h : credAccepted curl s (username, password) with
    | true =>
      have := credAttack_of_accepted curl s (username, password) h
      simp only at this
      rw [this]
      exact ⟨rfl, rfl, rfl⟩
    | false =>
      obtain ⟨e, he⟩ := credAttack_of_rejected curl s (username, password) h
      simp only at he
      rw [he]
      exact ⟨rfl, rfl, rfl⟩
  · cases h : routeAccepted curl s route with
    | true =>
      rw [routeAttack_of_accepted curl s route h]
      exact ⟨rfl, rfl, rfl, rfl⟩
    | false =>
      obtain ⟨e, he⟩ := routeAttack_of_rejected curl s route h
      rw [he]
      exact ⟨rfl, rfl, rfl, rfl⟩

/-- C6. Exhaustion leaves the stream unchanged: when no route of the
dictionary is accepted (404 or probe error for each, or no route at all)
`attackCameraRoute` sends one outcome, `routeFound = false`, carrying the
input stream; when no pair is accepted (401, 403 or probe error for each, or
an empty list) `attackCameraCredentials` sends one outcome,
`credentialsFound = false`, carrying the input stream. -/
theorem exhaustion_leaves_stream_unchanged (curl : Curl) (target : Stream) (routes : Routes)
    (credentials : Credentials) :
    ((∀ r ∈ routes, routeAccepted curl target r = false) →
      (attackCameraRoute curl target routes).sent
        = [{ stream := target, credentialsFound := false, routeFound := false }]) ∧
    ((∀ up ∈ credPairs credentials, credAccepted curl target up = false) →
      (attackCameraCredentials curl target credentials).sent
        = [{ stream := target, credentialsFound := false, routeFound := false }]) := by
  constructor
  · intro h
    rw [attackCameraRoute_rejected curl target routes h]
  · intro h
    rw [attackCameraCredentials_rejected curl target credentials h]

/-- C6 at a concrete input: a transport that is down, and an empty password list. -/
theorem exhaustion_leaves_stream_unchanged_witness :
    (attackCameraRoute curlDown cam1 ["/a", "/b"]).sent
        = [{ stream := cam1, credentialsFound := false, routeFound := false }] ∧
    (attackCameraCredentials curlOK cam1 ⟨["u1", "u2"], []⟩).sent
        = [{ stream := cam1, credentialsFound := false, routeFound := false }] :=
  ⟨(exhaustion_leaves_stream_unchanged curlDown cam1 ["/a", "/b"] ⟨[], []⟩).1 (by decide),
    (exhaustion_leaves_stream_unchanged curlOK cam1 [] ⟨["u1", "u2"], []⟩).2 (by decide)⟩

/-- C7. Order of trial and stop at first acceptance: the pairs that
`attackCameraCredentials` probes are an initial segment of the product
enumerated usernames outer, passwords inner. Either some pair is accepted, and
the probes are the pairs up to and including the first accepted one (no later
pair is probed), or no pair is accepted and the probes are the whole product.
In both cases exactly one outcome is sent. -/
theorem credentials_trial_order (curl : Curl) (target : Stream) (credentials : Credentials) :
    ((∃ pre up post, credPairs credentials = pre ++ up :: post ∧
        (∀ q ∈ pre, credAccepted curl target q = false) ∧
        credAccepted curl target up = true ∧
        (attackCameraCredentials curl target credentials).probed = pre ++ [up]) ∨
      ((∀ q ∈ credPairs credentials, credAccepted curl target q = false) ∧
        (attackCameraCredentials curl target credentials).probed = credPairs credentials)) ∧
    (∃ rest, credPairs credentials
        = (attackCameraCredentials curl target credentials).probed ++ rest) ∧
    (attackCameraCredentials curl target credentials).sent.length = 1 := by
  rcases accepted_or_all_rejected (credAccepted curl target) (credPairs credentials) with h | h
  · obtain ⟨pre, up, post, hsplit, hpre, hup⟩ := exists_first_split _ _ h
    have hrun := attackCameraCredentials_first curl target credentials pre up post hsplit hpre hup
    refine ⟨Or.inl ⟨pre, up, post, hsplit, hpre, hup, by rw [hrun]⟩, ⟨post, ?_⟩, by rw [hrun]; rfl⟩
    rw [hrun, hsplit]
    simp
  · have hrun := attackCameraCredentials_rejected curl target credentials h
    refine ⟨Or.inr ⟨h, by rw [hrun]⟩, ⟨[], ?_⟩, by rw [hrun]; rfl⟩
    rw [hrun]
    simp

/-- C7 at the input of the claim: usernames `[u1,u2]`, passwords `[p1,p2]`, a
transport accepting only `(u2,p1)`: the probes are `(u1,p1),(u1,p2),(u2,p1)`. -/
theorem credentials_trial_order_witness :
    (attackCameraCredentials curlU2P1 cam1 ⟨["u1", "u2"], ["p1", "p2"]⟩).probed
        = [("u1", "p1"), ("u1", "p2"), ("u2", "p1")] ∧
    (∃ rest, credPairs ⟨["u1", "u2"], ["p1", "p2"]⟩
        = (attackCameraCredentials curlU2P1 cam1 ⟨["u1", "u2"], ["p1", "p2"]⟩).probed ++ rest) ∧
    (attackCameraCredentials curlU2P1 cam1 ⟨["u1", "u2"], ["p1", "p2"]⟩).sent.length = 1 :=
  ⟨by decide, (credentials_trial_order curlU2P1 cam1 ⟨["u1", "u2"], ["p1", "p2"]⟩).2⟩

/-- C8. Idempotence of re-attack: if the route attack on `s` succeeds with
outcome stream `s'`, then the route attack on `s'` with the same dictionary
probes the same routes, accepts the same one and sends the outcome
`routeFound = true` with stream `s'`; if the credential attack on `s` succeeds
with outcome stream `s'`, then the credential attack on `s'` with the same
dictionary probes the same pairs, accepts the same one and sends the outcome
`credentialsFound = true` with stream `s'`. -/
theorem reattack_idempotent (curl : Curl) (s s' : Stream) (routes : Routes)
    (credentials : Credentials) :
    ((∃ a ∈ (attackCameraRoute curl s routes).sent, a.routeFound = true ∧ a.stream = s') →
      (attackCameraRoute curl s' routes).sent
          = [{ stream := s', credentialsFound := false, routeFound := true }] ∧
        (attackCameraRoute curl s' routes).probed = (attackCameraRoute curl s routes).probed ∧
        (attackCameraRoute curl s' routes).probed.getLast? = some s'.route) ∧
    ((∃ a ∈ (attackCameraCredentials curl s credentials).sent,
          a.credentialsFound = true ∧ a.stream = s') →
      (attackCameraCredentials curl s' credentials).sent
          = [{ stream := s', credentialsFound := true, routeFound := false }] ∧
        (attackCameraCredentials curl s' credentials).probed
          = (attackCameraCredentials curl s credentials).probed ∧
        (attackCameraCredentials curl s' credentials).probed.getLast?
          = some (s'.username, s'.password)) := by
  constructor
  · rintro ⟨a, ha, hfound, hs'⟩
    rcases accepted_or_all_rejected (routeAccepted curl s) routes with h | h
    · obtain ⟨pre, r, post, hsplit, hpre, hr⟩ := exists_first_split _ _ h
      have hrun := attackCameraRoute_first curl s pre r post hpre hr
      rw [← hsplit] at hrun
      rw [hrun] at ha
      simp only [List.mem_singleton] at ha
      subst ha
      simp only at hs'
      subst hs'
      have hpre2 : ∀ q ∈ pre, routeAccepted curl { s with route := r } q = false := by
        intro q hq
        rw [routeAccepted_congr curl s { s with route := r } q rfl rfl rfl rfl]
        exact hpre q hq
      have hr2 : routeAccepted curl { s with route := r } r = true := by
        rw [routeAccepted_congr curl s { s with route := r } r rfl rfl rfl rfl]
        exact hr
      have hrun2 := attackCameraRoute_first curl { s with route := r } pre r post hpre2 hr2
      rw [← hsplit] at hrun2
      rw [hrun2, hrun]
      simp
    · rw [attackCameraRoute_rejected curl s routes h] at ha
      simp only [List.mem_singleton] at ha
      subst ha
      simp at hfound
  · rintro ⟨a, ha, hfound, hs'⟩
    rcases accepted_or_all_rejected (credAccepted curl s) (credPairs credentials) with h | h
    · obtain ⟨pre, up, post, hsplit, hpre, hup⟩ := exists_first_split _ _ h
      have hrun := attackCameraCredentials_first curl s credentials pre up post hsplit hpre hup
      rw [hrun] at ha
      simp only [List.mem_singleton] at ha
      subst ha
      simp only at hs'
      subst hs'
      have hpre2 : ∀ q ∈ pre,
          credAccepted curl { s with username := up.1, password := up.2 } q = false := by
        intro q hq
        rw [credAccepted_congr curl s { s with username := up.1, password := up.2 } q
          rfl rfl rfl]
        exact hpre q hq
      have hup2 : credAccepted curl { s with username := up.1, password := up.2 } up = true := by
        rw [credAccepted_congr curl s { s with username := up.1, password := up.2 } up
          rfl rfl rfl]
        exact hup
      have hrun2 := attackCameraCredentials_first curl
        { s with username := up.1, password := up.2 } credentials pre up post hsplit hpre2 hup2
      rw [hrun2, hrun]
      simp
    · rw [attackCameraCredentials_rejected curl s credentials h] at ha
      simp only [List.mem_singleton] at ha
      subst ha
      simp at hfound

/-- C8 at a concrete input: the outcome of the route attack of C1 and the
outcome of the credential attack of C7, attacked again. -/
theorem reattack_idempotent_witness :
    ((attackCameraRoute curlNotA { cam1 with route := "/b" } ["/a", "/b"]).sent
          = [{ stream := { cam1 with route := "/b" }, credentialsFound := false,
               routeFound := true }] ∧
        (attackCameraRoute curlNotA { cam1 with route := "/b" } ["/a", "/b"]).probed
          = (attackCameraRoute curlNotA cam1 ["/a", "/b"]).probed ∧
        (attackCameraRoute curlNotA { cam1 with route := "/b" } ["/a", "/b"]).probed.getLast?
          = some "/b") ∧
    ((attackCameraCredentials curlU2P1 { cam1 with username := "u2", password := "p1" }
          ⟨["u1", "u2"], ["p1", "p2"]⟩).sent
          = [{ stream := { cam1 with username := "u2", password := "p1" },
               credentialsFound := true, routeFound := false }] ∧
        (attackCameraCredentials curlU2P1 { cam1 with username := "u2", password := "p1" }
          ⟨["u1", "u2"], ["p1", "p2"]⟩).probed
          = (attackCameraCredentials curlU2P1 cam1 ⟨["u1", "u2"], ["p1", "p2"]⟩).probed ∧
        (attackCameraCredentials curlU2P1 { cam1 with username := "u2", password := "p1" }
          ⟨["u1", "u2"], ["p1", "p2"]⟩).probed.getLast? = some ("u2", "p1")) :=
  ⟨(reattack_idempotent curlNotA cam1 { cam1 with route := "/b" } ["/a", "/b"] ⟨[], []⟩).1
      ⟨{ stream := { cam1 with route := "/b" }, credentialsFound := false, routeFound := true },
        by decide, rfl, rfl⟩,
    (reattack_idempotent curlU2P1 cam1 { cam1 with username := "u2", password := "p1" } []
        ⟨["u1", "u2"], ["p1", "p2"]⟩).2
      ⟨{ stream := { cam1 with username := "u2", password := "p1" }, credentialsFound := true,
         routeFound := false },
        by decide, rfl, rfl⟩⟩

/-! ## Lemmas on the orchestrators -/

theorem launchLoop_invalid (validate : Stream → Option String) (pre : List Stream)
    (bad : Stream) (post : List Stream) (e : String)
    (hpre : ∀ t ∈ pre, validate t = none) (hbad : validate bad = some e) :
    launchLoop validate (pre ++ bad :: post) = (pre, some e) := by
  induction pre with
  | nil => simp [launchLoop, hbad]
  | cons a t ih =>
    have ha : validate a = none := hpre a (by simp)
    have := ih (fun x hx => hpre x (List.mem_cons_of_mem _ hx))
    simp [launchLoop, ha, this]

/-- The error return of both orchestrators: the streams before the first
invalid one have had their attacker started. -/
theorem attack_invalid_general (curl : Curl) (validate : Stream → Option String)
    (sched : List Attack → List Attack) (pre : List Stream) (bad : Stream) (post : List Stream)
    (e : String) (routes : Routes) (credentials : Credentials)
    (hpre : ∀ t ∈ pre, validate t = none) (hbad : validate bad = some e) :
    AttackRoute curl validate sched (pre ++ bad :: post) routes
        = { launched := pre, results := pre ++ bad :: post,
            err := some ("invalid streams: " ++ e) } ∧
    AttackCredentials curl validate sched (pre ++ bad :: post) credentials
        = { launched := pre, results := pre ++ bad :: post,
            err := some ("invalid streams: " ++ e) } := by
  simp [AttackRoute, AttackCredentials, launchLoop_invalid validate pre bad post e hpre hbad]

/-! ## Claims on the orchestrators -/

/-- C3. Fail-fast validation, evaluated at the target list `[cam1, camBad]`
(a valid stream followed by one with an empty address): both orchestrators
return the "invalid streams" error and the unchanged list, but the attacker of
`cam1` was started before `camBad` was validated, and that attacker probes the
dictionary. -/
theorem invalid_after_valid_starts_attacker :
    validateStruct cam1 = none ∧ validateStruct camBad = some "address: required" ∧
    (AttackRoute curlOK validateStruct id [cam1, camBad] ["/a"]).err
        = some "invalid streams: address: required" ∧
    (AttackRoute curlOK validateStruct id [cam1, camBad] ["/a"]).results = [cam1, camBad] ∧
    (AttackRoute curlOK validateStruct id [cam1, camBad] ["/a"]).launched = [cam1] ∧
    (attackCameraRoute curlOK cam1 ["/a"]).probed = ["/a"] ∧
    (AttackCredentials curlOK validateStruct id [cam1, camBad] ⟨["u1"], ["p1"]⟩).err
        = some "invalid streams: address: required" ∧
    (AttackCredentials curlOK validateStruct id [cam1, camBad] ⟨["u1"], ["p1"]⟩).launched
        = [cam1] ∧
    (attackCameraCredentials curlOK cam1 ⟨["u1"], ["p1"]⟩).probed = [("u1", "p1")] := by
  decide

/-- A run of `DiscoverAndAttack` that returns no error is a run in which every
stage that ran succeeded: discovery, the route phase, the credential phase
and, when some target still has `routeFound = false`, the second credential
phase. -/
theorem campaign_no_error_stages {W : Type} (env : Package W) (c : Cameradar W)
    (h : (Cameradar.DiscoverAndAttack env c).1.2 = none) :
    ∃ l0 w0 l1 w1 l2 w2,
      env.Discover c.world = ((l0, none), w0) ∧
      env.AttackRoute l0 w0 = ((l1, none), w1) ∧
      env.AttackCredentials l1 w1 = ((l2, none), w2) ∧
      (((∀ x ∈ l2, x.routeFound = true) ∧
          Cameradar.DiscoverAndAttack env c
            = ((l2, none),
                { Streams := l2, world := w2
                  calls := c.calls ++ [Stage.discover, Stage.attackRoute,
                    Stage.attackCredentials] })) ∨
        ((∃ x ∈ l2, x.routeFound = false) ∧
          ∃ l3 w3, env.AttackCredentials l2 w2 = ((l3, none), w3) ∧
            Cameradar.DiscoverAndAttack env c
              = ((l3, none),
                  { Streams := l3, world := w3
                    calls := c.calls ++ [Stage.discover, Stage.attackRoute,
                      Stage.attackCredentials, Stage.attackCredentials] }))) := by
  rcases hd : env.Discover c.world with ⟨⟨l0, _ | e0⟩, w0⟩
  swap
  · simp [Cameradar.DiscoverAndAttack, Cameradar.Discover, hd] at h
  rcases hr : env.AttackRoute l0 w0 with ⟨⟨l1, _ | e1⟩, w1⟩
  swap
  · simp [Cameradar.DiscoverAndAttack, Cameradar.Discover, Cameradar.AttackRoute, hd, hr] at h
  rcases hc : env.AttackCredentials l1 w1 with ⟨⟨l2, _ | e2⟩, w2⟩
  swap
  · simp [Cameradar.DiscoverAndAttack, Cameradar.Discover, Cameradar.AttackRoute,
      Cameradar.AttackCredentials, hd, hr, hc] at h
  have hrun : Cameradar.DiscoverAndAttack env c
      = if l2.any (fun stream => stream.routeFound == false) = true then
          Cameradar.AttackCredentials env
            { Streams := l2, world := w2
              calls := c.calls ++ [Stage.discover, Stage.attackRoute,
                Stage.attackCredentials] }
        else
          ((l2, none),
            { Streams := l2, world := w2
              calls := c.calls ++ [Stage.discover, Stage.attackRoute,
                Stage.attackCredentials] }) := by
    simp only [Cameradar.DiscoverAndAttack, Cameradar.Discover, hd, Cameradar.AttackRoute, hr,
      Cameradar.AttackCredentials, hc, List.append_assoc, List.singleton_append,
      List.cons_append, List.nil_append]
  refine ⟨l0, w0, l1, w1, l2, w2, rfl, hr, hc, ?_⟩
  by_cases hany : l2.any (fun stream => stream.routeFound == false) = true
  · right
    have hex : ∃ x ∈ l2, x.routeFound = false := by
      simpa using hany
    refine ⟨hex, ?_⟩
    rw [hrun, if_pos hany] at h ⊢
    rcases hc2 : env.AttackCredentials l2 w2 with ⟨⟨l3, _ | e3⟩, w3⟩
    · refine ⟨l3, w3, rfl, ?_⟩
      simp only [Cameradar.AttackCredentials, hc2, List.append_assoc, List.singleton_append,
        List.cons_append, List.nil_append]
    · simp [Cameradar.AttackCredentials, hc2] at h
  · left
    have hall : ∀ x ∈ l2, x.routeFound = true := by
      simpa using hany
    refine ⟨hall, ?_⟩
    rw [hrun, if_neg hany]


/-- C9. Bounded one-shot retry: in a run of `DiscoverAndAttack` in which no
stage fails, discovery runs exactly once, then the route phase exactly once on
the discovered list, then the credential phase on the route phase's list.
When every target of the list returned by that credential phase has
`routeFound = true`, no further stage runs (the credential phase ran exactly
once) and that list is returned; when some target of it still has
`routeFound = false`, the credential phase runs exactly once more, on that
list, and the list of this second run is returned. The credential phase never
runs more than twice. -/
theorem campaign_retry_once {W : Type} (env : Package W) (c : Cameradar W) :
    (∀ l0 w0 l1 w1 l2 w2, env.Discover c.world = ((l0, none), w0) →
      env.AttackRoute l0 w0 = ((l1, none), w1) →
      env.AttackCredentials l1 w1 = ((l2, none), w2) →
      (∀ x ∈ l2, x.routeFound = true) →
      Cameradar.DiscoverAndAttack env c
          = ((l2, none),
              { Streams := l2, world := w2
                calls := c.calls ++ [Stage.discover, Stage.attackRoute,
                  Stage.attackCredentials] }) ∧
        (Cameradar.DiscoverAndAttack env c).2.calls.count Stage.attackCredentials
          = c.calls.count Stage.attackCredentials + 1) ∧
    (∀ l0 w0 l1 w1 l2 w2 l3 w3, env.Discover c.world = ((l0, none), w0) →
      env.AttackRoute l0 w0 = ((l1, none), w1) →
      env.AttackCredentials l1 w1 = ((l2, none), w2) →
      (∃ x ∈ l2, x.routeFound = false) →
      env.AttackCredentials l2 w2 = ((l3, none), w3) →
      Cameradar.DiscoverAndAttack env c
          = ((l3, none),
              { Streams := l3, world := w3
                calls := c.calls ++ [Stage.discover, Stage.attackRoute,
                  Stage.attackCredentials, Stage.attackCredentials] }) ∧
        (Cameradar.DiscoverAndAttack env c).2.calls.count Stage.attackCredentials
          = c.calls.count Stage.attackCredentials + 2) ∧
    (∀ l0 w0 l1 w1 l2 w2, env.Discover c.world = ((l0, none), w0) →
      env.AttackRoute l0 w0 = ((l1, none), w1) →
      env.AttackCredentials l1 w1 = ((l2, none), w2) →
      (Cameradar.DiscoverAndAttack env c).2.calls.count Stage.discover
          = c.calls.count Stage.discover + 1 ∧
        (Cameradar.DiscoverAndAttack env c).2.calls.count Stage.attackRoute
          = c.calls.count Stage.attackRoute + 1 ∧
        (Cameradar.DiscoverAndAttack env c).2.calls.count Stage.attackCredentials
          ≤ c.calls.count Stage.attackCredentials + 2) := by
  have hrun : ∀ l0 w0 l1 w1 l2 w2, env.Discover c.world = ((l0, none), w0) →
      env.AttackRoute l0 w0 = ((l1, none), w1) →
      env.AttackCredentials l1 w1 = ((l2, none), w2) →
      Cameradar.DiscoverAndAttack env c
        = if l2.any (fun stream => stream.routeFound == false) = true then
            Cameradar.AttackCredentials env
              { Streams := l2, world := w2
                calls := c.calls ++ [Stage.discover, Stage.attackRoute,
                  Stage.attackCredentials] }
          else
            ((l2, none),
              { Streams := l2, world := w2
                calls := c.calls ++ [Stage.discover, Stage.attackRoute,
                  Stage.attackCredentials] }) := by
    intro l0 w0 l1 w1 l2 w2 hd hr hc
    simp only [Cameradar.DiscoverAndAttack, Cameradar.Discover, hd, Cameradar.AttackRoute, hr,
      Cameradar.AttackCredentials, hc, List.append_assoc, List.singleton_append,
      List.cons_append, List.nil_append]
  refine ⟨?_, ?_, ?_⟩
  · intro l0 w0 l1 w1 l2 w2 hd hr hc hall
    have hany : ¬ l2.any (fun stream => stream.routeFound == false) = true := by
      simpa using hall
    rw [hrun l0 w0 l1 w1 l2 w2 hd hr hc, if_neg hany]
    refine ⟨rfl, ?_⟩
    simp [List.count_cons]
  · intro l0 w0 l1 w1 l2 w2 l3 w3 hd hr hc hex hc2
    have hany : l2.any (fun stream => stream.routeFound == false) = true := by
      simpa using hex
    rw [hrun l0 w0 l1 w1 l2 w2 hd hr hc, if_pos hany]
    simp only [Cameradar.AttackCredentials, hc2, List.append_assoc, List.singleton_append,
      List.cons_append, List.nil_append, true_and]
    simp [List.count_cons]
  · intro l0 w0 l1 w1 l2 w2 hd hr hc
    rw [hrun l0 w0 l1 w1 l2 w2 hd hr hc]
    by_cases hany : l2.any (fun stream => stream.routeFound == false) = true
    · rw [if_pos hany]
      rcases hc2 : env.AttackCredentials l2 w2 with ⟨⟨l3, _ | e3⟩, w3⟩ <;>
        simp [Cameradar.AttackCredentials, hc2, List.count_cons]
    · rw [if_neg hany]
      simp [List.count_cons]

/-- C9 at two concrete inputs. With `pkgRouteFound` every stage succeeds and
the route phase sets `routeFound`, so the credential phase runs once; with
`pkgOK` every stage succeeds and `routeFound` stays false, so the credential
phase runs twice. -/
theorem campaign_retry_once_witness :
    (Cameradar.DiscoverAndAttack pkgRouteFound svc0
          = (([camOwnedFound], none),
              { Streams := [camOwnedFound], world := 3
                calls := svc0.calls ++ [Stage.discover, Stage.attackRoute,
                  Stage.attackCredentials] }) ∧
        (Cameradar.DiscoverAndAttack pkgRouteFound svc0).2.calls.count Stage.attackCredentials
          = svc0.calls.count Stage.attackCredentials + 1) ∧
    (Cameradar.DiscoverAndAttack pkgOK svc0
          = (([camOwned], none),
              { Streams := [camOwned], world := 4
                calls := svc0.calls ++ [Stage.discover, Stage.attackRoute,
                  Stage.attackCredentials, Stage.attackCredentials] }) ∧
        (Cameradar.DiscoverAndAttack pkgOK svc0).2.calls.count Stage.attackCredentials
          = svc0.calls.count Stage.attackCredentials + 2) :=
  ⟨(campaign_retry_once pkgRouteFound svc0).1 [cam1] 1 [camRoutedFound] 2 [camOwnedFound] 3
      rfl rfl rfl (by decide),
    (campaign_retry_once pkgOK svc0).2.1 [cam1] 1 [camRouted] 2 [camOwned] 3 [camOwned] 4
      rfl rfl rfl (by decide) rfl⟩

/-- C10. Campaign abort on stage failure: when discovery, the route phase or
the first credential phase returns an error, `DiscoverAndAttack` runs no later
stage and returns the (wrapped) error with the list the failing stage
returned; the stored `Streams` is the list stored by the last stage that
succeeded (the list held before the campaign when discovery itself fails). -/
theorem campaign_aborts_on_failure {W : Type} (env : Package W) (c : Cameradar W) :
    (∀ l0 e w0, env.Discover c.world = ((l0, some e), w0) →
      Cameradar.DiscoverAndAttack env c
        = ((l0, some (wrap e "could not discover streams")),
            { Streams := c.Streams, world := w0, calls := c.calls ++ [Stage.discover] })) ∧
    (∀ l0 w0 l1 e w1, env.Discover c.world = ((l0, none), w0) →
      env.AttackRoute l0 w0 = ((l1, some e), w1) →
      Cameradar.DiscoverAndAttack env c
        = ((l1, some (wrap e "could not discover streams")),
            { Streams := l0, world := w1
              calls := c.calls ++ [Stage.discover, Stage.attackRoute] })) ∧
    (∀ l0 w0 l1 w1 l2 e w2, env.Discover c.world = ((l0, none), w0) →
      env.AttackRoute l0 w0 = ((l1, none), w1) →
      env.AttackCredentials l1 w1 = ((l2, some e), w2) →
      Cameradar.DiscoverAndAttack env c
        = ((l2, some (wrap e "could not discover streams")),
            { Streams := l1, world := w2
              calls := c.calls ++ [Stage.discover, Stage.attackRoute,
                Stage.attackCredentials] })) := by
  refine ⟨?_, ?_, ?_⟩
  · intro l0 e w0 hd
    simp only [Cameradar.DiscoverAndAttack, Cameradar.Discover, hd]
  · intro l0 w0 l1 e w1 hd hr
    simp only [Cameradar.DiscoverAndAttack, Cameradar.Discover, hd, Cameradar.AttackRoute, hr,
      List.append_assoc, List.singleton_append, List.cons_append, List.nil_append]
  · intro l0 w0 l1 w1 l2 e w2 hd hr hc
    simp only [Cameradar.DiscoverAndAttack, Cameradar.Discover, hd, Cameradar.AttackRoute, hr,
      Cameradar.AttackCredentials, hc, List.append_assoc, List.singleton_append,
      List.cons_append, List.nil_append]

/-- C10 at three concrete inputs: a failing discovery, a failing route phase
and a failing first credential phase. -/
theorem campaign_aborts_on_failure_witness :
    Cameradar.DiscoverAndAttack pkgDiscoverFails svc0
        = (([], some "could not discover streams: nmap failed"),
            { Streams := [], world := 1, calls := [Stage.discover] }) ∧
    Cameradar.DiscoverAndAttack pkgRouteFails svc0
        = (([cam1], some "could not discover streams: invalid streams"),
            { Streams := [cam1], world := 2
              calls := [Stage.discover, Stage.attackRoute] }) ∧
    Cameradar.DiscoverAndAttack pkgCredentialsFail svc0
        = (([{ cam1 with route := "/a" }], some "could not discover streams: invalid streams"),
            { Streams := [{ cam1 with route := "/a" }], world := 3
              calls := [Stage.discover, Stage.attackRoute, Stage.attackCredentials] }) :=
  ⟨(campaign_aborts_on_failure pkgDiscoverFails svc0).1 [] "nmap failed" 1 rfl,
    (campaign_aborts_on_failure pkgRouteFails svc0).2.1 [cam1] 1 [cam1] "invalid streams" 2
      rfl rfl,
    (campaign_aborts_on_failure pkgCredentialsFail svc0).2.2 [cam1] 1
      [{ cam1 with route := "/a" }] 2 [{ cam1 with route := "/a" }] "invalid streams" 3
      rfl rfl rfl⟩

end Cmrdr
